import Mathlib

set_option autoImplicit false

/-!
Shallow embedding of the assignment type checker in `src/code.cpp`.

The C++ core consists of:
- `DataType` (an enum of primitive types) and `toString` over it;
- `canImplicitlyConvert`, the widening-conversion lattice;
- `SymbolTable` with `declare` and `lookup` (a `std::map` from names to types);
- `Literal` (a `std::variant` of char/int/float/string payloads) with its
  structurally derived `type()`;
- the `Expression` hierarchy (`LiteralExpr`, `VariableExpr`) whose `getType`
  either returns a `DataType` or, for an undeclared variable, throws a
  runtime error carrying the message "Undeclared variable: " plus the name;
- `TypeChecker::checkAssignment`, which looks up the target, resolves the
  right-hand side (catching the exception), and consults the lattice.

Mutation becomes explicit state passing (`declare` returns the new table),
the thrown exception becomes `Except`, and the distinct return paths of
`checkAssignment` — each of which emits a distinct diagnostic and returns a
bool in the C++ — become the constructors of `CheckResult`.  The console
line each path prints (including the `currentLine` tag) is modelled by
`TypeChecker.diagnostic`, and the C++ bool return value by
`CheckResult.returnValue`.
-/

/-- The `DataType` enum of `src/code.cpp` (lines 9-16). -/
inductive DataType where
  | void
  | char
  | int
  | float
  | string
deriving DecidableEq, Repr

/-- `toString(DataType)` from `src/code.cpp` (lines 18-27).  The enum is
closed, so the C++ `default: return "unknown"` arm is unreachable and has no
counterpart in the exhaustive match. -/
def DataType.toString : DataType → String
  | .void => "void"
  | .char => "char"
  | .int => "int"
  | .float => "float"
  | .string => "string"

/-- `canImplicitlyConvert(from, to)` from `src/code.cpp` (lines 30-41):
identity first, then a switch on the target type whose `default` arm
returns false. -/
def canImplicitlyConvert (src dst : DataType) : Bool :=
  if src = dst then true
  else
    match dst with
    | .int => src = .char
    | .float => src = .char || src = .int
    | _ => false

/-- The `SymbolTable` of `src/code.cpp` (lines 45-63): its `std::map`
payload is modelled as an association list with unique keys maintained by
`declare`. -/
structure SymbolTable where
  symbols : List (String × DataType)
deriving DecidableEq, Repr

/-- `SymbolTable::lookup` (lines 58-62): find the entry for `name`, absent
is returned as `none` (`std::nullopt`). -/
def SymbolTable.lookup (st : SymbolTable) (name : String) : Option DataType :=
  match st.symbols.find? (fun p => p.1 == name) with
  | some p => some p.2
  | none => none

/-- `SymbolTable::declare` (lines 50-56): reject (returning `false` and the
unchanged table) if `name` is present, otherwise insert and return `true`.
The mutation of the C++ member becomes an explicitly returned table. -/
def SymbolTable.declare (st : SymbolTable) (name : String) (ty : DataType) :
    Bool × SymbolTable :=
  if (st.symbols.find? (fun p => p.1 == name)).isSome then
    (false, st)
  else
    (true, SymbolTable.mk (st.symbols ++ [(name, ty)]))

/-- The payload of `Literal`: `std::variant<char, int, float, std::string>`
(`src/code.cpp` line 68). -/
inductive LitValue where
  | char (c : Char)
  | int (n : Int)
  | float (x : Float)
  | string (s : String)

/-- `struct Literal` (lines 67-77). -/
structure Literal where
  value : LitValue

/-- `std::holds_alternative<char>` on the literal's variant. -/
def LitValue.holdsChar : LitValue → Bool
  | .char _ => true
  | _ => false

/-- `std::holds_alternative<int>` on the literal's variant. -/
def LitValue.holdsInt : LitValue → Bool
  | .int _ => true
  | _ => false

/-- `std::holds_alternative<float>` on the literal's variant. -/
def LitValue.holdsFloat : LitValue → Bool
  | .float _ => true
  | _ => false

/-- `std::holds_alternative<std::string>` on the literal's variant. -/
def LitValue.holdsString : LitValue → Bool
  | .string _ => true
  | _ => false

/-- `Literal::type` (lines 70-76), including the trailing
`return DataType::VOID; // Should not happen` fallback. -/
def Literal.type (l : Literal) : DataType :=
  if l.value.holdsChar then .char
  else if l.value.holdsInt then .int
  else if l.value.holdsFloat then .float
  else if l.value.holdsString then .string
  else .void

/-- The `Expression` hierarchy (lines 79-113) as a closed sum:
`LiteralExpr` wraps a `Literal`, `VariableExpr` wraps a name. -/
inductive Expression where
  | lit (l : Literal)
  | var (name : String)

/-- The failure `VariableExpr::getType` signals by throwing
`std::runtime_error("Undeclared variable: " + name)` (line 107). -/
inductive ResolveError where
  | undeclaredName (name : String)
deriving DecidableEq

/-- The `what()` string of the thrown runtime error (line 107). -/
def ResolveError.what : ResolveError → String
  | .undeclaredName n => "Undeclared variable: " ++ n

/-- The virtual `Expression::getType(symTab)` (lines 92-94 and 104-110):
a literal reports its own type without consulting the table; a variable
looks its name up and, when absent, throws — modelled as `Except.error`. -/
def Expression.getType (e : Expression) (symTab : SymbolTable) :
    Except ResolveError DataType :=
  match e with
  | .lit l => .ok l.type
  | .var name =>
    match symTab.lookup name with
    | some t => .ok t
    | none => .error (.undeclaredName name)

/-- The reason carried by a rejected check, one per distinct error return
path of `TypeChecker::checkAssignment` (lines 135-138, 145-148, 151-155). -/
inductive RejectReason where
  | undeclaredTarget
  | undeclaredSource (name : String)
  | typeMismatch (src dst : DataType)
deriving DecidableEq, Repr

/-- The outcome of one `checkAssignment` call.  Each constructor is one
return path of the C++ method together with the data that path reports:
`accepted` carries the declared (target) and resolved (source) types the
success branch prints (lines 158-160); each rejection carries what its
`reportError` message interpolates. -/
inductive CheckResult where
  | accepted (target source : DataType)
  | rejected (reason : RejectReason)
deriving DecidableEq, Repr

/-- The bool `TypeChecker::checkAssignment` actually returns on the path the
`CheckResult` describes: `true` on success (line 163), `false` on every
rejection (lines 137, 147, 154). -/
def CheckResult.returnValue : CheckResult → Bool
  | .accepted _ _ => true
  | .rejected _ => false

/-- The checking logic of `TypeChecker::checkAssignment` (lines 131-164),
as a pure function of the borrowed symbol table:
1. look up the target, absent means the undeclared-target rejection;
2. resolve the right-hand side, catching `UndeclaredName(n)` as the
   undeclared-source rejection;
3. consult the lattice, a disallowed conversion is a type mismatch;
4. otherwise accept with the declared and resolved types. -/
def checkAssignment (symbolTable : SymbolTable) (varName : String)
    (rhsExpr : Expression) : CheckResult :=
  match symbolTable.lookup varName with
  | none => .rejected .undeclaredTarget
  | some lhsType =>
    match rhsExpr.getType symbolTable with
    | .error (.undeclaredName n) => .rejected (.undeclaredSource n)
    | .ok rhsType =>
      if canImplicitlyConvert rhsType lhsType then
        .accepted lhsType rhsType
      else
        .rejected (.typeMismatch rhsType lhsType)

/-- The `TypeChecker` state (lines 117-127): a borrowed symbol table and the
diagnostic `currentLine` counter (initialised to 0 at construction). -/
structure TypeChecker where
  symbolTable : SymbolTable
  currentLine : Int
deriving DecidableEq, Repr

/-- `TypeChecker::setLine` (line 129). -/
def TypeChecker.setLine (tc : TypeChecker) (line : Int) : TypeChecker :=
  TypeChecker.mk tc.symbolTable line

/-- `TypeChecker::reportError` (lines 122-124): the line written to
`std::cerr`. -/
def TypeChecker.reportError (tc : TypeChecker) (msg : String) : String :=
  "Semantic Error (line " ++ ToString.toString tc.currentLine ++ "): " ++ msg

/-- The console line `checkAssignment` emits on each of its return paths:
the three `reportError` calls (lines 136, 146, 152-153) and the
"Assignment OK" success print (lines 158-160). -/
def TypeChecker.diagnostic (tc : TypeChecker) (varName : String) :
    CheckResult → String
  | .rejected .undeclaredTarget =>
    tc.reportError ("Undeclared variable \x27" ++ varName ++ "\x27")
  | .rejected (.undeclaredSource n) =>
    tc.reportError (ResolveError.what (.undeclaredName n))
  | .rejected (.typeMismatch src dst) =>
    tc.reportError ("Type mismatch: cannot assign " ++ DataType.toString src
      ++ " to variable of type " ++ DataType.toString dst)
  | .accepted target source =>
    "Assignment OK (line " ++ ToString.toString tc.currentLine ++ "): "
      ++ varName ++ " (" ++ DataType.toString target ++ ") = "
      ++ "expression of type " ++ DataType.toString source

/-- The full observable behaviour of one `TypeChecker::checkAssignment`
call: the outcome, the console line it prints, and the post-call checker
state (the method reads but never writes its members). -/
def TypeChecker.checkAssignmentFull (tc : TypeChecker) (varName : String)
    (rhsExpr : Expression) : CheckResult × String × TypeChecker :=
  (checkAssignment tc.symbolTable varName rhsExpr,
   tc.diagnostic varName (checkAssignment tc.symbolTable varName rhsExpr),
   tc)

/-- The symbol table `main` populates (lines 170-176):
x:Int, y:Float, c:Char, msg:String declared into an empty table. -/
def demoTable : SymbolTable :=
  (((((SymbolTable.mk []).declare "x" .int).2.declare "y" .float).2.declare
    "c" .char).2.declare "msg" .string).2

/-! ### Helper lemmas -/

theorem lookup_eq_none_iff (st : SymbolTable) (name : String) :
    st.lookup name = none ↔
      st.symbols.find? (fun p => p.1 == name) = none := by
  unfold SymbolTable.lookup
  cases h : st.symbols.find? (fun p => p.1 == name) <;> simp

theorem lookup_isSome_eq (st : SymbolTable) (name : String) :
    (st.lookup name).isSome =
      (st.symbols.find? (fun p => p.1 == name)).isSome := by
  unfold SymbolTable.lookup
  cases h : st.symbols.find? (fun p => p.1 == name) <;> simp

theorem checkAssignment_accepted_iff (st : SymbolTable) (v : String)
    (e : Expression) (tgt src : DataType) :
    checkAssignment st v e = .accepted tgt src ↔
      (st.lookup v = some tgt ∧ e.getType st = .ok src ∧
        canImplicitlyConvert src tgt = true) := by
  rcases hl : st.lookup v with _ | lhsType
  · simp [checkAssignment, hl]
  · rcases hg : e.getType st with err | rhsType
    · cases err with
      | undeclaredName n => simp [checkAssignment, hl, hg]
    · cases hc : canImplicitlyConvert rhsType lhsType with
      | true =>
        simp only [checkAssignment, hl, hg, hc, if_true, Option.some.injEq,
          Except.ok.injEq, CheckResult.accepted.injEq]
        constructor
        · rintro ⟨rfl, rfl⟩
          exact ⟨rfl, rfl, hc⟩
        · rintro ⟨rfl, rfl, h⟩
          exact ⟨rfl, rfl⟩
      | false =>
        simp only [checkAssignment, hl, hg, hc, Bool.false_eq_true, if_false]
        constructor
        · intro h
          exact absurd h (by simp)
        · rintro ⟨h1, h2, h3⟩
          injection h1 with h1
          injection h2 with h2
          subst h1
          subst h2
          rw [hc] at h3
          exact Bool.noConfusion h3

theorem checkAssignment_undeclaredTarget_iff (st : SymbolTable) (v : String)
    (e : Expression) :
    checkAssignment st v e = .rejected .undeclaredTarget ↔
      st.lookup v = none := by
  rcases hl : st.lookup v with _ | lhsType
  · simp [checkAssignment, hl]
  · rcases hg : e.getType st with err | rhsType
    · cases err with
      | undeclaredName n => simp [checkAssignment, hl, hg]
    · cases hc : canImplicitlyConvert rhsType lhsType <;>
        simp [checkAssignment, hl, hg, hc]

theorem checkAssignment_undeclaredSource_iff (st : SymbolTable) (v : String)
    (e : Expression) (n : String) :
    checkAssignment st v e = .rejected (.undeclaredSource n) ↔
      ((st.lookup v).isSome = true ∧
        e.getType st = .error (.undeclaredName n)) := by
  rcases hl : st.lookup v with _ | lhsType
  · simp [checkAssignment, hl]
  · rcases hg : e.getType st with err | rhsType
    · cases err with
      | undeclaredName m => simp [checkAssignment, hl, hg]
    · cases hc : canImplicitlyConvert rhsType lhsType <;>
        simp [checkAssignment, hl, hg, hc]

theorem checkAssignment_typeMismatch_iff (st : SymbolTable) (v : String)
    (e : Expression) (src tgt : DataType) :
    checkAssignment st v e = .rejected (.typeMismatch src tgt) ↔
      (st.lookup v = some tgt ∧ e.getType st = .ok src ∧
        canImplicitlyConvert src tgt = false) := by
  rcases hl : st.lookup v with _ | lhsType
  · simp [checkAssignment, hl]
  · rcases hg : e.getType st with err | rhsType
    · cases err with
      | undeclaredName m => simp [checkAssignment, hl, hg]
    · cases hc : canImplicitlyConvert rhsType lhsType with
      | false =>
        simp only [checkAssignment, hl, hg, hc, Bool.false_eq_true, if_false,
          Option.some.injEq, Except.ok.injEq, CheckResult.rejected.injEq,
          RejectReason.typeMismatch.injEq]
        constructor
        · rintro ⟨rfl, rfl⟩
          exact ⟨rfl, rfl, hc⟩
        · rintro ⟨rfl, rfl, h⟩
          exact ⟨rfl, rfl⟩
      | true =>
        simp only [checkAssignment, hl, hg, hc, if_true, Option.some.injEq,
          Except.ok.injEq]
        constructor
        · intro h
          exact absurd h (by simp)
        · rintro ⟨h1, h2, h3⟩
          subst h1
          subst h2
          rw [hc] at h3
          exact Bool.noConfusion h3

/-! ### Claims -/

/-- Claim C1: for every symbol table, target name, and expression,
`checkAssignment` returns `accepted target source` exactly when the target
is declared, the right-hand side resolves, and the resolved source type is
implicitly convertible to the declared target type; it returns the
undeclared-target rejection exactly when the target is absent (regardless
of the right-hand side, so an assignment whose target and source are both
undeclared is rejected as an undeclared target); the undeclared-source
rejection carrying `n` exactly when the target is declared and resolution
fails with `UndeclaredName n`; and the type-mismatch rejection carrying
the source and target types exactly when both resolve and the lattice
disallows the conversion. -/
theorem checkAssignment_complete_characterization (st : SymbolTable)
    (varName : String) (e : Expression) :
    (∀ tgt src : DataType, checkAssignment st varName e = .accepted tgt src ↔
      (st.lookup varName = some tgt ∧ e.getType st = .ok src ∧
        canImplicitlyConvert src tgt = true)) ∧
    (checkAssignment st varName e = .rejected .undeclaredTarget ↔
      st.lookup varName = none) ∧
    (∀ n : String,
      checkAssignment st varName e = .rejected (.undeclaredSource n) ↔
      ((st.lookup varName).isSome = true ∧
        e.getType st = .error (.undeclaredName n))) ∧
    (∀ src tgt : DataType,
      checkAssignment st varName e = .rejected (.typeMismatch src tgt) ↔
      (st.lookup varName = some tgt ∧ e.getType st = .ok src ∧
        canImplicitlyConvert src tgt = false)) :=
  ⟨fun tgt src => checkAssignment_accepted_iff st varName e tgt src,
   checkAssignment_undeclaredTarget_iff st varName e,
   fun n => checkAssignment_undeclaredSource_iff st varName e n,
   fun src tgt => checkAssignment_typeMismatch_iff st varName e src tgt⟩

/-- Claim C1 witness: on the demo table, assigning the int literal 42 to
the int-typed variable x is accepted with both types Int. -/
theorem checkAssignment_complete_characterization_witness :
    checkAssignment demoTable "x" (.lit (Literal.mk (.int 42))) =
      .accepted .int .int :=
  ((checkAssignment_complete_characterization demoTable "x"
    (.lit (Literal.mk (.int 42)))).1 .int .int).mpr
    ⟨by decide, rfl, by decide⟩

/-- Claim C2: over the five primitive types, `canImplicitlyConvert` holds
for exactly the 8 pairs consisting of the 5 reflexive pairs plus the 3
widening pairs Char→Int, Char→Float, Int→Float, and is false for every
other ordered pair. -/
theorem canImplicitlyConvert_exact :
    (∀ src dst : DataType, canImplicitlyConvert src dst = true ↔
      (src, dst) ∈ [((DataType.void : DataType), (DataType.void : DataType)),
        (.char, .char), (.int, .int), (.float, .float), (.string, .string),
        (.char, .int), (.char, .float), (.int, .float)]) ∧
    ([((DataType.void : DataType), (DataType.void : DataType)),
      (.char, .char), (.int, .int), (.float, .float), (.string, .string),
      (.char, .int), (.char, .float), (.int, .float)].length = 8) := by
  constructor
  · intro src dst
    cases src <;> cases dst <;> decide
  · rfl

/-- Claim C3: the three failure causes are pairwise distinguishable values
of the returned `CheckResult`: whenever three calls are rejected for an
undeclared target, an undeclared source (carrying that variable's name),
and a type mismatch (carrying the from- and to-types) respectively, the
three returned values are pairwise unequal — the causes are not collapsed
into a single failure value. -/
theorem checkAssignment_rejections_distinct
    (st₁ st₂ st₃ : SymbolTable) (v₁ v₂ v₃ : String)
    (e₁ e₂ e₃ : Expression) (n : String) (src dst : DataType)
    (h₁ : checkAssignment st₁ v₁ e₁ = .rejected .undeclaredTarget)
    (h₂ : checkAssignment st₂ v₂ e₂ = .rejected (.undeclaredSource n))
    (h₃ : checkAssignment st₃ v₃ e₃ = .rejected (.typeMismatch src dst)) :
    checkAssignment st₁ v₁ e₁ ≠ checkAssignment st₂ v₂ e₂ ∧
    checkAssignment st₂ v₂ e₂ ≠ checkAssignment st₃ v₃ e₃ ∧
    checkAssignment st₁ v₁ e₁ ≠ checkAssignment st₃ v₃ e₃ := by
  rw [h₁, h₂, h₃]
  refine ⟨?_, ?_, ?_⟩ <;> simp

/-- Claim C3 witness: on the demo table, an undeclared-target rejection, an
undeclared-source rejection, and a type-mismatch rejection are pairwise
distinct values. -/
theorem checkAssignment_rejections_distinct_witness :
    checkAssignment demoTable "undefined" (.lit (Literal.mk (.int 10))) ≠
      checkAssignment demoTable "x" (.var "u") ∧
    checkAssignment demoTable "x" (.var "u") ≠
      checkAssignment demoTable "x" (.lit (Literal.mk (.string "hello"))) ∧
    checkAssignment demoTable "undefined" (.lit (Literal.mk (.int 10))) ≠
      checkAssignment demoTable "x" (.lit (Literal.mk (.string "hello"))) :=
  checkAssignment_rejections_distinct demoTable demoTable demoTable
    "undefined" "x" "x" (.lit (Literal.mk (.int 10))) (.var "u")
    (.lit (Literal.mk (.string "hello"))) "u" .string .int
    (by decide) (by decide) (by decide)

/-- Claim C4: with the table `main` pre-populates (x:Int, y:Float, c:Char,
msg:String), the six end-to-end scenarios hold: x := 42 is accepted at
(Int, Int); y := 5 is accepted at (Float, Int); c := 65 is rejected with
TypeMismatch(Int, Char); x := "hello" is rejected with
TypeMismatch(String, Int); y := x is accepted at (Float, Int); and an
assignment to the undeclared name "undefined" is rejected as an undeclared
target. -/
theorem main_scenarios :
    checkAssignment demoTable "x" (.lit (Literal.mk (.int 42))) =
      .accepted .int .int ∧
    checkAssignment demoTable "y" (.lit (Literal.mk (.int 5))) =
      .accepted .float .int ∧
    checkAssignment demoTable "c" (.lit (Literal.mk (.int 65))) =
      .rejected (.typeMismatch .int .char) ∧
    checkAssignment demoTable "x" (.lit (Literal.mk (.string "hello"))) =
      .rejected (.typeMismatch .string .int) ∧
    checkAssignment demoTable "y" (.var "x") = .accepted .float .int ∧
    checkAssignment demoTable "undefined" (.lit (Literal.mk (.int 10))) =
      .rejected .undeclaredTarget := by
  decide

/-- Claim C5: `checkAssignment` is total — every call returns a
`CheckResult` value, accepted or rejected — and a right-hand-side
resolution failure `UndeclaredName n` on a declared target is caught and
delivered as the data value `rejected (undeclaredSource n)` rather than
escaping the checker. -/
theorem checkAssignment_catches_resolution_failure
    (st : SymbolTable) (v : String) (e : Expression) :
    ((∃ tgt src, checkAssignment st v e = .accepted tgt src) ∨
      (∃ r, checkAssignment st v e = .rejected r)) ∧
    (∀ t n, st.lookup v = some t →
      e.getType st = .error (.undeclaredName n) →
      checkAssignment st v e = .rejected (.undeclaredSource n)) := by
  constructor
  · cases h : checkAssignment st v e with
    | accepted tgt src => exact Or.inl ⟨tgt, src, rfl⟩
    | rejected r => exact Or.inr ⟨r, rfl⟩
  · intro t n hl hg
    unfold checkAssignment
    rw [hl, hg]

/-- Claim C5 witness: on the demo table, assigning the undeclared variable
u to the declared variable x yields the undeclared-source rejection
carrying "u". -/
theorem checkAssignment_catches_resolution_failure_witness :
    checkAssignment demoTable "x" (.var "u") =
      .rejected (.undeclaredSource "u") :=
  (checkAssignment_catches_resolution_failure demoTable "x" (.var "u")).2
    .int "u" (by decide) rfl

/-- Claim C6: if a name is already present, `declare` returns false and
leaves the entire table unchanged; if it is absent, `declare` inserts the
binding and returns true, after which `lookup` returns the declared type —
and a second declaration of the same name, with any type, fails and leaves
the lookup result exactly what it was after the first declaration. -/
theorem declare_spec (st : SymbolTable) (name : String) (ty ty₂ : DataType) :
    ((st.lookup name).isSome = true → st.declare name ty = (false, st)) ∧
    (st.lookup name = none →
      (st.declare name ty).1 = true ∧
      (st.declare name ty).2.lookup name = some ty ∧
      ((st.declare name ty).2.declare name ty₂).1 = false ∧
      (((st.declare name ty).2.declare name ty₂).2).lookup name = some ty) := by
  constructor
  · intro h
    rw [lookup_isSome_eq] at h
    simp only [SymbolTable.declare, h, if_true]
  · intro h
    have hf : st.symbols.find? (fun p => p.1 == name) = none :=
      (lookup_eq_none_iff st name).mp h
    have happ : (st.symbols ++ [(name, ty)]).find?
        (fun p => p.1 == name) = some (name, ty) := by
      rw [List.find?_append, hf]
      simp
    refine ⟨?_, ?_, ?_, ?_⟩
    · simp [SymbolTable.declare, hf]
    · simp [SymbolTable.declare, SymbolTable.lookup, hf, happ]
    · simp [SymbolTable.declare, hf, happ]
    · simp [SymbolTable.declare, SymbolTable.lookup, hf, happ]

/-- Claim C6 witness: declaring "a" as Int into the empty table succeeds
and is then visible to lookup; re-declaring "a" as Float fails and leaves
the lookup result at Int. -/
theorem declare_spec_witness :
    ((SymbolTable.mk []).declare "a" .int).1 = true ∧
    ((SymbolTable.mk []).declare "a" .int).2.lookup "a" = some .int ∧
    (((SymbolTable.mk []).declare "a" .int).2.declare "a" .float).1 = false ∧
    ((((SymbolTable.mk []).declare "a" .int).2.declare "a" .float).2).lookup
      "a" = some .int :=
  (declare_spec (SymbolTable.mk []) "a" .int .float).2 (by decide)

/-- Claim C7: for every variable expression and symbol table, if the name
is declared then `getType` returns the declared type; if it is absent,
`getType` fails with `UndeclaredName` carrying exactly the wrapped name;
and no other outcome is possible. -/
theorem variableExpr_getType_spec (name : String) (st : SymbolTable) :
    (∀ t : DataType, st.lookup name = some t →
      (Expression.var name).getType st = .ok t) ∧
    (st.lookup name = none →
      (Expression.var name).getType st = .error (.undeclaredName name)) ∧
    (∀ r : Except ResolveError DataType,
      (Expression.var name).getType st = r →
      (∃ t, st.lookup name = some t ∧ r = .ok t) ∨
      (st.lookup name = none ∧ r = .error (.undeclaredName name))) := by
  refine ⟨?_, ?_, ?_⟩
  · intro t h
    simp [Expression.getType, h]
  · intro h
    simp [Expression.getType, h]
  · intro r h
    rcases hl : st.lookup name with _ | t
    · refine Or.inr ⟨rfl, ?_⟩
      rw [← h]
      simp [Expression.getType, hl]
    · refine Or.inl ⟨t, rfl, ?_⟩
      rw [← h]
      simp [Expression.getType, hl]

/-- Claim C7 witness: on the demo table, the variable expression x resolves
to Int, and the variable expression u fails with UndeclaredName "u". -/
theorem variableExpr_getType_spec_witness :
    (Expression.var "x").getType demoTable = .ok .int ∧
    (Expression.var "u").getType demoTable =
      .error (.undeclaredName "u") :=
  ⟨(variableExpr_getType_spec "x" demoTable).1 .int (by decide),
   (variableExpr_getType_spec "u" demoTable).2.1 (by decide)⟩

/-- Claim C8: for every literal expression, `getType` always succeeds with
the type tag of the populated variant (char to Char, int to Int, float to
Float, string to String), and the result is identical across any two
symbol tables. -/
theorem literalExpr_getType_spec (l : Literal) (st st' : SymbolTable) :
    (Expression.lit l).getType st = .ok l.type ∧
    (Expression.lit l).getType st = (Expression.lit l).getType st' ∧
    (∀ c, l.value = .char c → l.type = .char) ∧
    (∀ n, l.value = .int n → l.type = .int) ∧
    (∀ x, l.value = .float x → l.type = .float) ∧
    (∀ s, l.value = .string s → l.type = .string) := by
  refine ⟨rfl, rfl, ?_, ?_, ?_, ?_⟩ <;> intro a h <;>
    simp [Literal.type, h, LitValue.holdsChar, LitValue.holdsInt,
      LitValue.holdsFloat, LitValue.holdsString]

/-- Claim C8 witness: the int literal 0 resolves to Int against the demo
table and against the empty table, with the same result, and its derived
tag is Int. -/
theorem literalExpr_getType_spec_witness :
    (Expression.lit (Literal.mk (.int 0))).getType demoTable = .ok .int ∧
    (Expression.lit (Literal.mk (.int 0))).getType demoTable =
      (Expression.lit (Literal.mk (.int 0))).getType (SymbolTable.mk []) ∧
    (Literal.mk (LitValue.int 0)).type = .int :=
  ⟨(literalExpr_getType_spec (Literal.mk (.int 0)) demoTable
      (SymbolTable.mk [])).1,
   (literalExpr_getType_spec (Literal.mk (.int 0)) demoTable
      (SymbolTable.mk [])).2.1,
   (literalExpr_getType_spec (Literal.mk (.int 0)) demoTable
      (SymbolTable.mk [])).2.2.2.1 0 rfl⟩

/-- Claim C9: the checker is deterministic and effect-free on the checking
state: a call returns the checker state (and thus the symbol table)
unchanged, the verdict is unaffected by `setLine`, and any two checker
states over the same symbol table — differing only in the current-line
annotation — produce the same `CheckResult` for the same (target,
expression) input. -/
theorem typeChecker_stateless (tc : TypeChecker) (line : Int) (v : String)
    (e : Expression) :
    ((tc.setLine line).checkAssignmentFull v e).1 =
      (tc.checkAssignmentFull v e).1 ∧
    (tc.checkAssignmentFull v e).2.2 = tc ∧
    (∀ tc' : TypeChecker, tc'.symbolTable = tc.symbolTable →
      (tc'.checkAssignmentFull v e).1 = (tc.checkAssignmentFull v e).1) := by
  refine ⟨rfl, rfl, ?_⟩
  intro tc' h
  show checkAssignment tc'.symbolTable v e = checkAssignment tc.symbolTable v e
  rw [h]

/-- Claim C9 witness: two checkers over the demo table whose line
annotations differ (99 versus 0) return the same verdict for x := 1. -/
theorem typeChecker_stateless_witness :
    ((TypeChecker.mk demoTable 99).checkAssignmentFull "x"
        (.lit (Literal.mk (.int 1)))).1 =
      ((TypeChecker.mk demoTable 0).checkAssignmentFull "x"
        (.lit (Literal.mk (.int 1)))).1 :=
  (typeChecker_stateless (TypeChecker.mk demoTable 0) 7 "x"
    (.lit (Literal.mk (.int 1)))).2.2 (TypeChecker.mk demoTable 99) rfl

/-- Claim C10: every constructible literal derives one of the four
populated tags Char, Int, Float, String — the `Void` fallback arm of the
type derivation is unreachable. -/
theorem literal_type_never_void (l : Literal) :
    l.type ≠ .void ∧
    (l.type = .char ∨ l.type = .int ∨ l.type = .float ∨
      l.type = .string) := by
  obtain ⟨v⟩ := l
  cases v <;>
    simp [Literal.type, LitValue.holdsChar, LitValue.holdsInt,
      LitValue.holdsFloat, LitValue.holdsString]
